import Mathlib

/-
Verification development for the ai-agent-platform conversation core.

Shallow embedding of:
  - src/app/models/message.py        (Message model: role constants, fields)
  - src/app/services/chat_service.py (ChatService: get_session_context,
                                      build_langchain_messages, generate_response)
  - src/app/services/voice_service.py(VoiceService: speech_to_text,
                                      text_to_speech, process_voice_message)

The record store (Django ORM) is modelled as an explicit in-memory table of
rows; external collaborators (the LLM client, the speech client, the audio
upload) are modelled as function/value parameters whose Option result encodes
success (`some`) versus a raised exception (`none`).  Timestamps are Nat; the
store's clock does not advance by itself, so two messages created in one
request may share a timestamp (as with Django's auto_now_add granularity);
row identity (`id`, auto-increment) records insertion order.
-/

/-- Role constant `Message.USER = "user"` from src/app/models/message.py. -/
def Message.USER : String := "user"

/-- Role constant `Message.AGENT = "agent"` from src/app/models/message.py. -/
def Message.AGENT : String := "agent"

/-- Agent row: identity, display name, system prompt (src/app/models/agent.py). -/
structure Agent where
  id : Nat
  name : String
  prompt : String
deriving Repr, DecidableEq

/-- ChatSession row: identity and owning agent (src/app/models/chatsession.py). -/
structure ChatSession where
  id : Nat
  agentId : Nat
deriving Repr, DecidableEq

/-- Message row (src/app/models/message.py): session foreign key, role stored as
a plain string column (CharField), content, creation timestamp.  `id` is the
auto-increment primary key, so insertion order is ascending `id`. -/
structure StoredMessage where
  id : Nat
  sessionId : Nat
  role : String
  content : String
  createdAt : Nat
deriving Repr, DecidableEq

/-- The record store: tables for agents, sessions and messages (the message
table in insertion order), the next auto-increment id, and the current clock
used for auto_now_add timestamps. -/
structure Store where
  agents : List Agent
  sessions : List ChatSession
  msgs : List StoredMessage
  nextId : Nat
  now : Nat
deriving Repr, DecidableEq

/-- ChatSession.objects.get(id=session_id): first session row with this id. -/
def findSession (st : Store) (sid : Nat) : Option ChatSession :=
  st.sessions.find? (fun s => s.id = sid)

/-- Resolve an agent row by id (the select_related join target). -/
def findAgent (st : Store) (aid : Nat) : Option Agent :=
  st.agents.find? (fun a => a.id = aid)

/-- ChatSession.objects.select_related(agent).get(id=session_id): the session
together with its owning agent.  The agent foreign key is non-null and the
store enforces referential integrity, so for well-formed stores the agent
lookup cannot fail once the session is found. -/
def getSessionWithAgent (st : Store) (sid : Nat) : Option (ChatSession × Agent) :=
  match findSession st sid with
  | none => none
  | some s => (findAgent st s.agentId).map (fun a => (s, a))

/-- session.messages: the message rows of one session, in insertion order. -/
def sessionMessages (st : Store) (sid : Nat) : List StoredMessage :=
  st.msgs.filter (fun m => m.sessionId = sid)

/-- Message.objects.create(session=..., role=..., content=...): appends a row
with the next auto-increment id, timestamped at persist time.  As with the
Django ORM, `create` performs no choices validation: any role string is
stored as given (full_clean is never called on this path). -/
def createMessage (st : Store) (sid : Nat) (role content : String) : Store :=
  { st with
    msgs := st.msgs ++
      [{ id := st.nextId, sessionId := sid, role := role, content := content,
         createdAt := st.now }]
    nextId := st.nextId + 1 }

/-- One entry of the conversation context: the role/content dict built by
ChatService.get_session_context. -/
structure CtxEntry where
  role : String
  content : String
deriving Repr, DecidableEq

/-- session.messages.order_by(created_at): a stable sort of the insertion-order
row list by creation timestamp (equal timestamps keep insertion order). -/
def orderByCreatedAt (l : List StoredMessage) : List StoredMessage :=
  l.insertionSort (fun a b => a.createdAt ≤ b.createdAt)

/-- ChatService.get_session_context: retrieve all messages of the session
ordered by created_at and project each to its role/content pair. -/
def get_session_context (st : Store) (session : ChatSession) : List CtxEntry :=
  (orderByCreatedAt (sessionMessages st session.id)).map
    (fun m => { role := m.role, content := m.content })

/-- A LangChain chat message: SystemMessage, HumanMessage or AIMessage. -/
inductive LCMessage where
  | system (content : String)
  | human (content : String)
  | ai (content : String)
deriving Repr, DecidableEq

/-- The loop body of ChatService.build_langchain_messages: a context entry with
role `user` becomes a HumanMessage, role `agent` an AIMessage, and any other
role matches neither branch and contributes nothing. -/
def renderEntry (msg : CtxEntry) : Option LCMessage :=
  if msg.role = Message.USER then some (LCMessage.human msg.content)
  else if msg.role = Message.AGENT then some (LCMessage.ai msg.content)
  else none

/-- ChatService.build_langchain_messages: system prompt first, then the
rendered history, then the new user message as a final HumanMessage. -/
def build_langchain_messages (agent_prompt : String) (context : List CtxEntry)
    (user_message : String) : List LCMessage :=
  (LCMessage.system agent_prompt :: context.filterMap renderEntry) ++
    [LCMessage.human user_message]

/-- Decidable equality for Except results, so that concrete runs of the
orchestrators can be checked by evaluation. -/
instance {ε α : Type} [DecidableEq ε] [DecidableEq α] : DecidableEq (Except ε α) := by
  intro a b
  cases a with
  | error e =>
    cases b with
    | error f =>
      exact decidable_of_iff (e = f)
        ⟨fun h => by rw [h], fun h => by cases h; rfl⟩
    | ok y => exact isFalse (by intro h; cases h)
  | ok x =>
    cases b with
    | error f => exact isFalse (by intro h; cases h)
    | ok y =>
      exact decidable_of_iff (x = y)
        ⟨fun h => by rw [h], fun h => by cases h; rfl⟩

/-- Failure conditions of ChatService.generate_response: the session lookup
raises DoesNotExist, or the llm.invoke call raises. -/
inductive ChatError where
  | sessionNotFound
  | llmError
deriving Repr, DecidableEq

/-- Result of one generate_response call: the store afterwards, the outcome
(agent text or error), and the message sequence the LLM client was invoked
with (`none` when the LLM was never called). -/
structure ChatResult where
  store : Store
  outcome : Except ChatError String
  llmInput : Option (List LCMessage)
deriving Repr, DecidableEq

/-- ChatService.generate_response (src/app/services/chat_service.py, lines
59-95): resolve session and agent; read the context; persist the user
message; build the LangChain sequence; invoke the LLM (`llm ms = none`
models a raised exception); persist and return the agent response. -/
def generate_response (llm : List LCMessage → Option String) (st : Store)
    (session_id : Nat) (user_message : String) : ChatResult :=
  match getSessionWithAgent st session_id with
  | none =>
    { store := st, outcome := Except.error ChatError.sessionNotFound,
      llmInput := none }
  | some (session, agent) =>
    let context := get_session_context st session
    let st1 := createMessage st session.id Message.USER user_message
    let messages := build_langchain_messages agent.prompt context user_message
    match llm messages with
    | none =>
      { store := st1, outcome := Except.error ChatError.llmError,
        llmInput := some messages }
    | some agent_response =>
      let st2 := createMessage st1 session.id Message.AGENT agent_response
      { store := st2, outcome := Except.ok agent_response,
        llmInput := some messages }

/-- Failure conditions of VoiceService.speech_to_text: writing the uploaded
chunks into the temporary file raises, or the transcription call raises. -/
inductive STTError where
  | materializeError
  | transcribeError
deriving Repr, DecidableEq

/-- VoiceService.speech_to_text (src/app/services/voice_service.py, lines
14-36), traced at the level of the temporary file.  The NamedTemporaryFile
is created with delete=False, so from that point the file exists on disk.
If writing the uploaded chunks raises (`chunksOk = false`), the with-block
closes the file without deleting it and the exception propagates: no
try/finally covers this region, so the file is left behind.  Otherwise the
transcription call (`transcribe`, `none` models a raise) runs inside
try/finally whose finally removes the file on both exits.  The second
component of the result is whether the temporary file still exists when
the call returns or raises. -/
def speech_to_text (chunksOk : Bool) (transcribe : Option String) :
    Except STTError String × Bool :=
  if chunksOk then
    match transcribe with
    | none => (Except.error STTError.transcribeError, false)
    | some t => (Except.ok t, false)
  else
    (Except.error STTError.materializeError, true)

/-- VoiceService.text_to_speech: one synthesis round trip to the speech
client (`none` models a raised exception). -/
def text_to_speech (synthesize : String → Option (List Nat)) (text : String) :
    Option (List Nat) :=
  synthesize text

/-- Failure conditions of VoiceService.process_voice_message, tagged by the
pipeline step that raised. -/
inductive VoiceError where
  | sttError (e : STTError)
  | chatError (e : ChatError)
  | ttsError
deriving Repr, DecidableEq

/-- Result of one process_voice_message call: the store afterwards, the
outcome (audio bytes or error), whether the text-to-speech step was ever
invoked, and whether the speech-to-text temporary file was left behind. -/
structure VoiceResult where
  store : Store
  outcome : Except VoiceError (List Nat)
  ttsInvoked : Bool
  tmpLeft : Bool
deriving Repr, DecidableEq

/-- VoiceService.process_voice_message (src/app/services/voice_service.py,
lines 52-72): speech-to-text, then ChatService.generate_response with the
transcript, then text-to-speech; each step runs only if the previous one
succeeded, and a failure propagates immediately. -/
def process_voice_message (llm : List LCMessage → Option String)
    (transcribe : Option String) (synthesize : String → Option (List Nat))
    (chunksOk : Bool) (st : Store) (session_id : Nat) : VoiceResult :=
  match speech_to_text chunksOk transcribe with
  | (Except.error e, tmp) =>
    { store := st, outcome := Except.error (VoiceError.sttError e),
      ttsInvoked := false, tmpLeft := tmp }
  | (Except.ok user_text, tmp) =>
    let r := generate_response llm st session_id user_text
    match r.outcome with
    | Except.error e =>
      { store := r.store, outcome := Except.error (VoiceError.chatError e),
        ttsInvoked := false, tmpLeft := tmp }
    | Except.ok agent_text =>
      match text_to_speech synthesize agent_text with
      | none =>
        { store := r.store, outcome := Except.error VoiceError.ttsError,
          ttsInvoked := true, tmpLeft := tmp }
      | some audio =>
        { store := r.store, outcome := Except.ok audio,
          ttsInvoked := true, tmpLeft := tmp }

/-- Spec-side rendering of one history entry, role-for-role: user to
human-turn, agent to assistant-turn.  Used only to state what
build_langchain_messages does on well-formed history. -/
def roleFor (e : CtxEntry) : LCMessage :=
  if e.role = Message.USER then LCMessage.human e.content
  else LCMessage.ai e.content

/-- Canonical conversation order on message rows: ascending creation time,
ties broken by insertion order (ascending id). -/
def msgLex (a b : StoredMessage) : Prop :=
  a.createdAt < b.createdAt ∨ (a.createdAt = b.createdAt ∧ a.id < b.id)

/-- Appending a message row for a session extends that session's log by
exactly that row, leaving the prior rows unchanged. -/
theorem sessionMessages_createMessage (st : Store) (sid : Nat) (role content : String) :
    sessionMessages (createMessage st sid role content) sid =
      sessionMessages st sid ++
        [{ id := st.nextId, sessionId := sid, role := role, content := content,
           createdAt := st.now }] := by
  simp [sessionMessages, createMessage, List.filter_append]

/-- The two role constants are distinct strings. -/
theorem agent_ne_user : Message.AGENT ≠ Message.USER := by decide

/-- On history whose roles are all exactly user or agent, the rendering loop
keeps every entry, mapped role-for-role. -/
theorem filterMap_renderEntry_eq_map (ctx : List CtxEntry)
    (h : ∀ e ∈ ctx, e.role = Message.USER ∨ e.role = Message.AGENT) :
    ctx.filterMap renderEntry = ctx.map roleFor := by
  induction ctx with
  | nil => rfl
  | cons e ctx ih =>
    have he := h e (List.mem_cons_self e ctx)
    have hrest : ∀ x ∈ ctx, x.role = Message.USER ∨ x.role = Message.AGENT :=
      fun x hx => h x (List.mem_cons_of_mem e hx)
    rcases he with he | he
    · simp [List.filterMap_cons, renderEntry, roleFor, he, ih hrest]
    · have hne : e.role ≠ Message.USER := by
        rw [he]; intro hc; exact absurd hc (by decide)
      simp [List.filterMap_cons, renderEntry, roleFor, he, hne, agent_ne_user, ih hrest]

/-- The rendering loop is exactly: keep the entries with a recognized role,
mapped role-for-role; silently drop the rest. -/
theorem filterMap_renderEntry_eq_filter (ctx : List CtxEntry) :
    ctx.filterMap renderEntry =
      (ctx.filter (fun e => e.role = Message.USER ∨ e.role = Message.AGENT)).map roleFor := by
  induction ctx with
  | nil => rfl
  | cons e ctx ih =>
    by_cases hu : e.role = Message.USER
    · simp [List.filterMap_cons, List.filter_cons, renderEntry, roleFor, hu, ih]
    · by_cases ha : e.role = Message.AGENT
      · simp [List.filterMap_cons, List.filter_cons, renderEntry, roleFor, hu, ha, agent_ne_user, ih]
      · simp [List.filterMap_cons, List.filter_cons, renderEntry, hu, ha, ih]

/-- Helper for the canonical order: earlier-or-equal creation time together
with a smaller id gives the lexicographic order. -/
theorem msgLex_of_le_of_lt {x y : StoredMessage}
    (hle : x.createdAt ≤ y.createdAt) (hid : x.id < y.id) : msgLex x y := by
  rcases lt_or_eq_of_le hle with h | h
  · exact Or.inl h
  · exact Or.inr ⟨h, hid⟩

/-- The canonical order implies non-decreasing creation time. -/
theorem msgLex_time_le {x y : StoredMessage} (h : msgLex x y) :
    x.createdAt ≤ y.createdAt := by
  rcases h with h | ⟨h, _⟩
  · exact le_of_lt h
  · exact le_of_eq h

/-- Inserting a row whose id is below every id of a lexicographically sorted
list keeps the list lexicographically sorted (stability of orderedInsert). -/
theorem pairwise_msgLex_orderedInsert (x : StoredMessage) :
    ∀ l : List StoredMessage, l.Pairwise msgLex → (∀ y ∈ l, x.id < y.id) →
      (List.orderedInsert (fun a b => a.createdAt ≤ b.createdAt) x l).Pairwise msgLex := by
  intro l
  induction l with
  | nil => intro _ _; simp [List.orderedInsert, msgLex]
  | cons b l ih =>
    intro hsorted hid
    obtain ⟨hb, hl⟩ := List.pairwise_cons.mp hsorted
    rw [List.orderedInsert]
    by_cases h : x.createdAt ≤ b.createdAt
    · rw [if_pos h]
      rw [List.pairwise_cons]
      refine ⟨fun y hy => ?_, hsorted⟩
      rcases List.mem_cons.mp hy with rfl | hy
      · exact msgLex_of_le_of_lt h (hid y (List.mem_cons_self y l))
      · exact msgLex_of_le_of_lt (le_trans h (msgLex_time_le (hb y hy)))
          (hid y (List.mem_cons_of_mem b hy))
    · rw [if_neg h]
      rw [List.pairwise_cons]
      refine ⟨fun y hy => ?_, ?_⟩
      · rcases (List.mem_orderedInsert _).mp hy with rfl | hy
        · exact Or.inl (Nat.lt_of_not_le h)
        · exact hb y hy
      · exact ih hl (fun y hy => hid y (List.mem_cons_of_mem b hy))

/-- Stability of the order_by model: sorting an insertion-ordered list (ids
ascending) by creation time yields a list sorted lexicographically by
creation time, ties broken by id (insertion order). -/
theorem pairwise_msgLex_orderByCreatedAt :
    ∀ l : List StoredMessage, l.Pairwise (fun a b => a.id < b.id) →
      (orderByCreatedAt l).Pairwise msgLex := by
  intro l
  induction l with
  | nil => intro _; simp [orderByCreatedAt, List.insertionSort]
  | cons x l ih =>
    intro h
    obtain ⟨hx, hl⟩ := List.pairwise_cons.mp h
    rw [orderByCreatedAt, List.insertionSort]
    apply pairwise_msgLex_orderedInsert
    · exact ih hl
    · intro y hy
      exact hx y ((List.mem_insertionSort _).mp hy)

/-- Reduction of generate_response when the session resolves and the LLM call
succeeds: user message persisted from the pre-read store, then the agent
message, with the built sequence as the LLM input. -/
theorem generate_response_eq_ok (llm : List LCMessage → Option String) (st : Store)
    (sid : Nat) (u : String) (s : ChatSession) (a : Agent) (resp : String)
    (hs : getSessionWithAgent st sid = some (s, a))
    (hllm : llm (build_langchain_messages a.prompt (get_session_context st s) u) = some resp) :
    generate_response llm st sid u =
      { store := createMessage (createMessage st s.id Message.USER u) s.id Message.AGENT resp,
        outcome := Except.ok resp,
        llmInput := some (build_langchain_messages a.prompt (get_session_context st s) u) } := by
  simp [generate_response, hs, hllm]

/-- Reduction of generate_response when the session resolves and the LLM call
raises: only the user message is persisted. -/
theorem generate_response_eq_llmError (llm : List LCMessage → Option String) (st : Store)
    (sid : Nat) (u : String) (s : ChatSession) (a : Agent)
    (hs : getSessionWithAgent st sid = some (s, a))
    (hllm : llm (build_langchain_messages a.prompt (get_session_context st s) u) = none) :
    generate_response llm st sid u =
      { store := createMessage st s.id Message.USER u,
        outcome := Except.error ChatError.llmError,
        llmInput := some (build_langchain_messages a.prompt (get_session_context st s) u) } := by
  simp [generate_response, hs, hllm]

/-- Reduction of generate_response when the session does not resolve. -/
theorem generate_response_eq_notFound (llm : List LCMessage → Option String) (st : Store)
    (sid : Nat) (u : String)
    (hs : getSessionWithAgent st sid = none) :
    generate_response llm st sid u =
      { store := st, outcome := Except.error ChatError.sessionNotFound,
        llmInput := none } := by
  simp [generate_response, hs]

/-- Demo agent used to evaluate the theorems on concrete inputs. -/
def demoAgent : Agent :=
  { id := 1, name := "helper", prompt := "You are a helpful assistant." }

/-- Demo session owned by the demo agent. -/
def demoSession : ChatSession := { id := 7, agentId := 1 }

/-- Demo store: one agent, one session, two prior messages (one turn). -/
def demoStore : Store :=
  { agents := [demoAgent]
    sessions := [demoSession]
    msgs := [{ id := 0, sessionId := 7, role := "user", content := "Hi", createdAt := 1 },
             { id := 1, sessionId := 7, role := "agent", content := "Hello! How can I help?", createdAt := 2 }]
    nextId := 2
    now := 3 }

/-- Demo LLM client that always answers with a fixed completion. -/
def demoLLM : List LCMessage → Option String := fun _ => some "Four"

/-- C1: on a successful generate_response over a session with N prior
messages (all role-tagged user/agent), the session log afterwards is the N
prior messages unchanged, then the new user message with the given text,
then the new agent message with the LLM completion (N+2 total); and the
sequence passed to the LLM client is the system prompt first, then the N
historical messages in ascending creation order mapped role-for-role, then
the new user text as a final human turn (N+2 entries). -/
theorem generate_response_success_turn_counts
    (llm : List LCMessage → Option String) (st : Store) (sid : Nat) (u : String)
    (s : ChatSession) (a : Agent) (resp : String)
    (hs : getSessionWithAgent st sid = some (s, a))
    (hroles : ∀ m ∈ sessionMessages st s.id, m.role = Message.USER ∨ m.role = Message.AGENT)
    (hllm : llm (build_langchain_messages a.prompt (get_session_context st s) u) = some resp) :
    sessionMessages (generate_response llm st sid u).store s.id =
        sessionMessages st s.id ++
          [{ id := st.nextId, sessionId := s.id, role := Message.USER, content := u,
             createdAt := st.now },
           { id := st.nextId + 1, sessionId := s.id, role := Message.AGENT, content := resp,
             createdAt := st.now }]
      ∧ (sessionMessages (generate_response llm st sid u).store s.id).length =
          (sessionMessages st s.id).length + 2
      ∧ (generate_response llm st sid u).llmInput =
          some (LCMessage.system a.prompt ::
            ((orderByCreatedAt (sessionMessages st s.id)).map
                (fun m => roleFor { role := m.role, content := m.content }) ++
              [LCMessage.human u]))
      ∧ (build_langchain_messages a.prompt (get_session_context st s) u).length =
          (sessionMessages st s.id).length + 2 := by
  have hctx : ∀ e ∈ get_session_context st s,
      e.role = Message.USER ∨ e.role = Message.AGENT := by
    intro e he
    rw [get_session_context, List.mem_map] at he
    obtain ⟨m, hm, rfl⟩ := he
    exact hroles m ((List.mem_insertionSort _).mp hm)
  have hbuild : build_langchain_messages a.prompt (get_session_context st s) u =
      LCMessage.system a.prompt ::
        ((orderByCreatedAt (sessionMessages st s.id)).map
            (fun m => roleFor { role := m.role, content := m.content }) ++
          [LCMessage.human u]) := by
    rw [build_langchain_messages, filterMap_renderEntry_eq_map _ hctx]
    rw [get_session_context, List.map_map]
    rfl
  rw [generate_response_eq_ok llm st sid u s a resp hs hllm]
  refine ⟨?_, ?_, ?_, ?_⟩
  · rw [sessionMessages_createMessage, sessionMessages_createMessage, List.append_assoc]
    simp [createMessage]
  · rw [sessionMessages_createMessage, sessionMessages_createMessage]
    simp
  · rw [hbuild]
  · rw [hbuild]
    simp [orderByCreatedAt, sessionMessages, List.length_insertionSort]

/-- Witness for C1: on the demo store (2 prior messages), a successful call
leaves 2+2 messages in the session log. -/
theorem generate_response_success_turn_counts_witness :
    (sessionMessages (generate_response demoLLM demoStore 7 "What is 2+2?").store 7).length =
      (sessionMessages demoStore 7).length + 2 := by
  exact (generate_response_success_turn_counts demoLLM demoStore 7 "What is 2+2?"
    demoSession demoAgent "Four" rfl (by decide) rfl).2.1

/-- C2: if the LLM call inside generate_response raises, the session log
afterwards is exactly the N prior messages plus the newly persisted user
message (N+1 total); the user write is not rolled back, and every message
that is new relative to the prior log has role user (no agent message was
produced by this invocation). -/
theorem generate_response_llm_failure_persists_user_turn
    (llm : List LCMessage → Option String) (st : Store) (sid : Nat) (u : String)
    (s : ChatSession) (a : Agent)
    (hs : getSessionWithAgent st sid = some (s, a))
    (hllm : llm (build_langchain_messages a.prompt (get_session_context st s) u) = none) :
    sessionMessages (generate_response llm st sid u).store s.id =
        sessionMessages st s.id ++
          [{ id := st.nextId, sessionId := s.id, role := Message.USER, content := u,
             createdAt := st.now }]
      ∧ (sessionMessages (generate_response llm st sid u).store s.id).length =
          (sessionMessages st s.id).length + 1
      ∧ (generate_response llm st sid u).outcome = Except.error ChatError.llmError
      ∧ ∀ m ∈ sessionMessages (generate_response llm st sid u).store s.id,
          m ∉ sessionMessages st s.id → m.role = Message.USER := by
  rw [generate_response_eq_llmError llm st sid u s a hs hllm]
  refine ⟨sessionMessages_createMessage st s.id Message.USER u, ?_, rfl, ?_⟩
  · rw [sessionMessages_createMessage]
    simp
  · intro m hm hnew
    rw [sessionMessages_createMessage, List.mem_append] at hm
    rcases hm with hm | hm
    · exact absurd hm hnew
    · rw [List.mem_singleton] at hm
      rw [hm]

/-- Witness for C2: on the demo store with a failing LLM client, exactly the
user message is appended and the call reports the LLM error. -/
theorem generate_response_llm_failure_persists_user_turn_witness :
    sessionMessages (generate_response (fun _ => none) demoStore 7 "Hey").store 7 =
        sessionMessages demoStore 7 ++
          [{ id := 2, sessionId := 7, role := Message.USER, content := "Hey", createdAt := 3 }]
      ∧ (generate_response (fun _ => none) demoStore 7 "Hey").outcome =
          Except.error ChatError.llmError := by
  have h := generate_response_llm_failure_persists_user_turn (fun _ => none) demoStore 7 "Hey"
    demoSession demoAgent rfl rfl
  exact ⟨h.1, h.2.2.1⟩

/-- C3: the history rendered for the LLM is read from the store as it was
before the new user message was persisted (so the in-flight turn is never in
the history part), and the new user utterance is rendered exactly once
beyond that history: the built sequence ends with it, and contains exactly
one more human-turn entry with that text than the rendered history does. -/
theorem generate_response_history_excludes_inflight_turn
    (llm : List LCMessage → Option String) (st : Store) (sid : Nat) (u : String)
    (s : ChatSession) (a : Agent)
    (hs : getSessionWithAgent st sid = some (s, a)) :
    (generate_response llm st sid u).llmInput =
        some (build_langchain_messages a.prompt (get_session_context st s) u)
      ∧ (build_langchain_messages a.prompt (get_session_context st s) u).getLast? =
          some (LCMessage.human u)
      ∧ (build_langchain_messages a.prompt (get_session_context st s) u).count
            (LCMessage.human u) =
          ((get_session_context st s).filterMap renderEntry).count (LCMessage.human u) + 1 := by
  refine ⟨?_, ?_, ?_⟩
  · cases hllm : llm (build_langchain_messages a.prompt (get_session_context st s) u) with
    | none => rw [generate_response_eq_llmError llm st sid u s a hs hllm]
    | some resp => rw [generate_response_eq_ok llm st sid u s a resp hs hllm]
  · rw [build_langchain_messages]
    exact List.getLast?_concat _
  · rw [build_langchain_messages]
    simp [List.count_append, List.count_cons]

/-- Witness for C3: on the demo store, the sequence handed to the LLM ends
with the new utterance and contains it exactly once beyond the history. -/
theorem generate_response_history_excludes_inflight_turn_witness :
    (generate_response demoLLM demoStore 7 "Hi").llmInput =
        some (build_langchain_messages demoAgent.prompt
          (get_session_context demoStore demoSession) "Hi")
      ∧ (build_langchain_messages demoAgent.prompt
            (get_session_context demoStore demoSession) "Hi").count (LCMessage.human "Hi") =
          ((get_session_context demoStore demoSession).filterMap renderEntry).count
              (LCMessage.human "Hi") + 1 := by
  have h := generate_response_history_excludes_inflight_turn demoLLM demoStore 7 "Hi"
    demoSession demoAgent rfl
  exact ⟨h.1, h.2.2⟩

/-- C4: when the session identifier does not exist in the record store,
generate_response fails with the not-found condition, the store (hence the
message log) is unchanged, and the LLM client is never invoked. -/
theorem generate_response_unknown_session_no_side_effects
    (llm : List LCMessage → Option String) (st : Store) (sid : Nat) (u : String)
    (hs : findSession st sid = none) :
    (generate_response llm st sid u).outcome = Except.error ChatError.sessionNotFound
      ∧ (generate_response llm st sid u).store = st
      ∧ (generate_response llm st sid u).llmInput = none := by
  have hg : getSessionWithAgent st sid = none := by
    rw [getSessionWithAgent, hs]
  rw [generate_response_eq_notFound llm st sid u hg]
  exact ⟨rfl, rfl, rfl⟩

/-- Witness for C4: session 99 does not exist in the demo store, so the call
fails with not-found, changes nothing and never reaches the LLM. -/
theorem generate_response_unknown_session_no_side_effects_witness :
    (generate_response demoLLM demoStore 99 "Hello").outcome =
        Except.error ChatError.sessionNotFound
      ∧ (generate_response demoLLM demoStore 99 "Hello").store = demoStore
      ∧ (generate_response demoLLM demoStore 99 "Hello").llmInput = none := by
  exact generate_response_unknown_session_no_side_effects demoLLM demoStore 99 "Hello" rfl

/-- C5: in the voice pipeline, (1) if the speech-to-text step fails, the
store is unchanged (zero new messages) and text-to-speech is never invoked;
(2) if speech-to-text and the chat turn succeed but text-to-speech fails,
exactly two new messages (the user turn and the agent turn) remain
persisted even though the overall call fails. -/
theorem process_voice_message_failure_semantics
    (llm : List LCMessage → Option String) (transcribe : Option String)
    (synthesize : String → Option (List Nat)) (chunksOk : Bool) (st : Store) (sid : Nat) :
    (∀ e tmp, speech_to_text chunksOk transcribe = (Except.error e, tmp) →
        (process_voice_message llm transcribe synthesize chunksOk st sid).store = st
          ∧ (process_voice_message llm transcribe synthesize chunksOk st sid).ttsInvoked = false)
      ∧ ∀ t b s a resp, speech_to_text chunksOk transcribe = (Except.ok t, b) →
          getSessionWithAgent st sid = some (s, a) →
          llm (build_langchain_messages a.prompt (get_session_context st s) t) = some resp →
          synthesize resp = none →
          sessionMessages (process_voice_message llm transcribe synthesize chunksOk st sid).store
              s.id =
              sessionMessages st s.id ++
                [{ id := st.nextId, sessionId := s.id, role := Message.USER, content := t,
                   createdAt := st.now },
                 { id := st.nextId + 1, sessionId := s.id, role := Message.AGENT, content := resp,
                   createdAt := st.now }]
            ∧ (process_voice_message llm transcribe synthesize chunksOk st sid).outcome =
                Except.error VoiceError.ttsError
            ∧ (process_voice_message llm transcribe synthesize chunksOk st sid).ttsInvoked =
                true := by
  constructor
  · intro e tmp hstt
    constructor <;> simp [process_voice_message, hstt]
  · intro t b s a resp hstt hs hllm hsyn
    have hgr := generate_response_eq_ok llm st sid t s a resp hs hllm
    have hres : process_voice_message llm transcribe synthesize chunksOk st sid =
        { store := createMessage (createMessage st s.id Message.USER t) s.id Message.AGENT resp,
          outcome := Except.error VoiceError.ttsError, ttsInvoked := true, tmpLeft := b } := by
      simp [process_voice_message, hstt, hgr, text_to_speech, hsyn]
    rw [hres]
    refine ⟨?_, rfl, rfl⟩
    rw [sessionMessages_createMessage, sessionMessages_createMessage, List.append_assoc]
    simp [createMessage]

/-- Witness for C5: on the demo store, a transcription failure leaves the
store untouched with no synthesis call, and a synthesis failure after a
successful text turn reports an error with the text turn persisted. -/
theorem process_voice_message_failure_semantics_witness :
    ((process_voice_message demoLLM none (fun _ => some [0]) true demoStore 7).store = demoStore
      ∧ (process_voice_message demoLLM none (fun _ => some [0]) true demoStore 7).ttsInvoked =
          false)
    ∧ ((process_voice_message demoLLM (some "Hello") (fun _ => none) true demoStore 7).outcome =
          Except.error VoiceError.ttsError
      ∧ (process_voice_message demoLLM (some "Hello") (fun _ => none) true demoStore 7).ttsInvoked =
          true) := by
  refine ⟨(process_voice_message_failure_semantics demoLLM none (fun _ => some [0]) true
    demoStore 7).1 STTError.transcribeError false rfl, ?_⟩
  have h := (process_voice_message_failure_semantics demoLLM (some "Hello") (fun _ => none) true
    demoStore 7).2 "Hello" false demoSession demoAgent "Four" rfl rfl rfl rfl
  exact ⟨h.2.1, h.2.2⟩

/-- C6: the context builder's output lists the session's messages in
non-decreasing creation-time order with same-timestamp ties kept in
insertion (identity) order — given that the underlying log is in insertion
order (ascending ids) — it is a permutation of the log (no filtering or
truncation), and re-invoking it on unchanged storage yields an identical
output (the builder is a pure function of the store, so determinism and
idempotence hold by reflexivity). -/
theorem get_session_context_canonical_order (st : Store) (s : ChatSession)
    (h : (sessionMessages st s.id).Pairwise (fun a b => a.id < b.id)) :
    (orderByCreatedAt (sessionMessages st s.id)).Pairwise msgLex
      ∧ (orderByCreatedAt (sessionMessages st s.id)).Perm (sessionMessages st s.id)
      ∧ get_session_context st s =
          (orderByCreatedAt (sessionMessages st s.id)).map
            (fun m => { role := m.role, content := m.content })
      ∧ get_session_context st s = get_session_context st s :=
  ⟨pairwise_msgLex_orderByCreatedAt _ h, List.perm_insertionSort _ _, rfl, rfl⟩

/-- Demo store with a shared timestamp: rows 5 and 6 of session 7 were both
created at time 4, so the tie must be broken by insertion order. -/
def demoTieStore : Store :=
  { agents := [demoAgent]
    sessions := [demoSession]
    msgs := [{ id := 5, sessionId := 7, role := "user", content := "a", createdAt := 4 },
             { id := 6, sessionId := 7, role := "agent", content := "b", createdAt := 4 },
             { id := 8, sessionId := 7, role := "user", content := "c", createdAt := 2 }]
    nextId := 9
    now := 9 }

/-- Witness for C6: on a log with a shared timestamp, the builder's order is
lexicographic in creation time then insertion id, and permutes the log. -/
theorem get_session_context_canonical_order_witness :
    (orderByCreatedAt (sessionMessages demoTieStore 7)).Pairwise msgLex
      ∧ (orderByCreatedAt (sessionMessages demoTieStore 7)).Perm
          (sessionMessages demoTieStore 7) := by
  have h := get_session_context_canonical_order demoTieStore demoSession (by decide)
  exact ⟨h.1, h.2.1⟩

/-- C7 counterexample: when materializing the uploaded audio into the
temporary file fails, speech_to_text raises but the temporary file still
exists afterwards — the with-block that writes the chunks is outside the
try/finally, and the file was created with delete=False, so this exit path
performs no cleanup.  This refutes deletion on every exit path. -/
theorem speech_to_text_tmpfile_left_on_materialize_failure :
    speech_to_text false none = (Except.error STTError.materializeError, true)
      ∧ (speech_to_text false none).2 ≠ false := by
  exact ⟨rfl, by decide⟩

/-- C7 amended: once the audio has been materialized into the temporary
file, the file is deleted on every exit path of speech_to_text — on success
and also when the transcription call raises — but a failure while
materializing the audio itself leaves the file behind. -/
theorem speech_to_text_cleanup_after_materialize (transcribe : Option String) :
    (speech_to_text true transcribe).2 = false
      ∧ (speech_to_text false transcribe).2 = true := by
  cases transcribe <;> exact ⟨rfl, rfl⟩

/-- C8: generate_response accepts the empty string as user text with no
validation or stripping at the orchestration core: the empty string is
persisted verbatim as the new user message's content, the LLM client is
still invoked, and the rendered sequence ends with a human turn carrying
the empty string verbatim. -/
theorem generate_response_accepts_empty_user_text
    (llm : List LCMessage → Option String) (st : Store) (sid : Nat)
    (s : ChatSession) (a : Agent)
    (hs : getSessionWithAgent st sid = some (s, a)) :
    (∃ rest, sessionMessages (generate_response llm st sid "").store s.id =
        sessionMessages st s.id ++
          ({ id := st.nextId, sessionId := s.id, role := Message.USER, content := "",
             createdAt := st.now } :: rest))
      ∧ (generate_response llm st sid "").llmInput =
          some (build_langchain_messages a.prompt (get_session_context st s) "")
      ∧ (build_langchain_messages a.prompt (get_session_context st s) "").getLast? =
          some (LCMessage.human "") := by
  refine ⟨?_, ?_, ?_⟩
  · cases hllm : llm (build_langchain_messages a.prompt (get_session_context st s) "") with
    | none =>
      rw [generate_response_eq_llmError llm st sid "" s a hs hllm]
      exact ⟨[], sessionMessages_createMessage st s.id Message.USER ""⟩
    | some resp =>
      rw [generate_response_eq_ok llm st sid "" s a resp hs hllm]
      refine ⟨[StoredMessage.mk (st.nextId + 1) s.id Message.AGENT resp st.now], ?_⟩
      rw [sessionMessages_createMessage, sessionMessages_createMessage, List.append_assoc]
      simp [createMessage]
  · cases hllm : llm (build_langchain_messages a.prompt (get_session_context st s) "") with
    | none => rw [generate_response_eq_llmError llm st sid "" s a hs hllm]
    | some resp => rw [generate_response_eq_ok llm st sid "" s a resp hs hllm]
  · rw [build_langchain_messages]
    exact List.getLast?_concat _

/-- Witness for C8: the demo store accepts an empty user text; the new user
row is persisted with empty content and the LLM is invoked. -/
theorem generate_response_accepts_empty_user_text_witness :
    (∃ rest, sessionMessages (generate_response demoLLM demoStore 7 "").store 7 =
        sessionMessages demoStore 7 ++
          ({ id := 2, sessionId := 7, role := Message.USER, content := "",
             createdAt := 3 } :: rest))
      ∧ (generate_response demoLLM demoStore 7 "").llmInput =
          some (build_langchain_messages demoAgent.prompt
            (get_session_context demoStore demoSession) "") := by
  have h := generate_response_accepts_empty_user_text demoLLM demoStore 7
    demoSession demoAgent rfl
  exact ⟨h.1, h.2.1⟩

/-- C9 counterexample: the storage boundary does not reject roles outside
the two-variant tag.  The role column is a plain string field and the
object-manager create path performs no choices validation (full_clean is
never invoked), so a message with role system is stored as given rather
than rejected. -/
theorem createMessage_accepts_unknown_role :
    sessionMessages (createMessage demoStore 7 "system" "oops") 7 =
        sessionMessages demoStore 7 ++
          [{ id := 2, sessionId := 7, role := "system", content := "oops", createdAt := 3 }]
      ∧ ¬("system" = Message.USER ∨ "system" = Message.AGENT) := by
  exact ⟨sessionMessages_createMessage demoStore 7 "system" "oops", by decide⟩

/-- C9 amended: every message the orchestration code itself stores has role
exactly user or agent — generate_response only ever creates rows with the
two role constants, so the closed two-variant tagging is an invariant of
the program's own creation sites — but an attempt to create a message with
any other role value is not rejected at the storage boundary. -/
theorem generate_response_preserves_role_closure
    (llm : List LCMessage → Option String) (st : Store) (sid : Nat) (u : String)
    (h : ∀ m ∈ st.msgs, m.role = Message.USER ∨ m.role = Message.AGENT) :
    ∀ m ∈ (generate_response llm st sid u).store.msgs,
      m.role = Message.USER ∨ m.role = Message.AGENT := by
  intro m hm
  cases hg : getSessionWithAgent st sid with
  | none =>
    rw [generate_response_eq_notFound llm st sid u hg] at hm
    exact h m hm
  | some sa =>
    obtain ⟨s, a⟩ := sa
    cases hllm : llm (build_langchain_messages a.prompt (get_session_context st s) u) with
    | none =>
      rw [generate_response_eq_llmError llm st sid u s a hg hllm] at hm
      simp only [createMessage, List.mem_append, List.mem_singleton] at hm
      rcases hm with hm | hm
      · exact h m hm
      · rw [hm]; exact Or.inl rfl
    | some resp =>
      rw [generate_response_eq_ok llm st sid u s a resp hg hllm] at hm
      simp only [createMessage, List.mem_append, List.mem_singleton] at hm
      rcases hm with (hm | hm) | hm
      · exact h m hm
      · rw [hm]; exact Or.inl rfl
      · rw [hm]; exact Or.inr rfl

/-- Witness for C9's amended statement: the agent row stored by a successful
call on the demo store carries one of the two closed role tags. -/
theorem generate_response_preserves_role_closure_witness :
    (StoredMessage.mk 3 7 "agent" "Four" 3).role = Message.USER ∨
      (StoredMessage.mk 3 7 "agent" "Four" 3).role = Message.AGENT := by
  exact generate_response_preserves_role_closure demoLLM demoStore 7 "Q" (by decide)
    (StoredMessage.mk 3 7 "agent" "Four" 3) (by decide)

/-- C10: build_langchain_messages keeps exactly the history entries whose
role is the user or agent tag, mapped role-for-role, and silently omits
every entry with any other role value without raising; hence for a history
of N entries of which K have unrecognized roles, the rendered sequence has
length N + 2 - K (stated additively: K plus the rendered length equals
N + 2). -/
theorem build_langchain_messages_drops_unknown_roles (p u : String) (ctx : List CtxEntry) :
    build_langchain_messages p ctx u =
        (LCMessage.system p ::
          (ctx.filter (fun e => e.role = Message.USER ∨ e.role = Message.AGENT)).map roleFor) ++
          [LCMessage.human u]
      ∧ (ctx.filter (fun e => ¬(e.role = Message.USER ∨ e.role = Message.AGENT))).length +
          (build_langchain_messages p ctx u).length = ctx.length + 2 := by
  have hb : build_langchain_messages p ctx u =
      (LCMessage.system p ::
        (ctx.filter (fun e => e.role = Message.USER ∨ e.role = Message.AGENT)).map roleFor) ++
        [LCMessage.human u] := by
    rw [build_langchain_messages, filterMap_renderEntry_eq_filter]
  refine ⟨hb, ?_⟩
  rw [hb]
  have hsplit : ∀ l : List CtxEntry,
      (l.filter (fun e => ¬(e.role = Message.USER ∨ e.role = Message.AGENT))).length +
        (l.filter (fun e => e.role = Message.USER ∨ e.role = Message.AGENT)).length =
        l.length := by
    intro l
    induction l with
    | nil => rfl
    | cons e l ih =>
      rw [List.filter_cons, List.filter_cons]
      by_cases h : e.role = Message.USER ∨ e.role = Message.AGENT
      · rw [if_neg (by simp only [decide_eq_true_eq]; exact not_not_intro h),
          if_pos (by simp only [decide_eq_true_eq]; exact h)]
        rw [List.length_cons, List.length_cons]
        omega
      · rw [if_pos (by simp only [decide_eq_true_eq]; exact h),
          if_neg (by simp only [decide_eq_true_eq]; exact h)]
        rw [List.length_cons, List.length_cons]
        omega
  have hsp := hsplit ctx
  simp only [List.length_append, List.length_cons, List.length_map, List.length_nil]
  omega
